import Mathlib

set_option maxRecDepth 8000

/-!
Verification of `src/.archive/diagnostics/final_erc1155_analysis.py`.

The script builds one nested dictionary literal, `erc1155_data`, and executes
`print(json.dumps(erc1155_data, indent=2))`.  The development below embeds the
JSON value space, the literal, the serializer (`json.dumps` with `indent=2`,
default separators `","` and `": "`, insertion-ordered keys), the `print`
side effect, and a JSON reader used to state the round-trip property.
-/

/-- JSON values as produced by the script.  Python floats appear in the data
only as non-negative decimal literals whose `repr` is exact
(`1383851.59`, `225572.34`), so a float is embedded as its integer part and
its non-empty string of fraction digits. -/
inductive JVal : Type where
  | jstr : String → JVal
  | jint : Int → JVal
  | jfloat : Nat → String → JVal
  | jobj : List (String × JVal) → JVal
  | jarr : List JVal → JVal

/-- The opening curly bracket character. -/
def lbrace : Char := Char.ofNat 123

/-- The closing curly bracket character. -/
def rbrace : Char := Char.ofNat 125

/-- `n` spaces, the indentation unit of `json.dumps(..., indent=2)`. -/
def spaces (n : Nat) : String := String.mk (List.replicate n ' ')

/-- JSON string escaping as `json.dumps` performs it on the characters that
can occur here (the data is printable ASCII, so only the five short escapes
are relevant). -/
def escChar (c : Char) : String :=
  if c = '"' then "\\\""
  else if c = '\\' then "\\\\"
  else if c = '\n' then "\\n"
  else if c = '\t' then "\\t"
  else if c = '\r' then "\\r"
  else String.singleton c

/-- A JSON string literal: double quotes around the escaped characters. -/
def jquote (s : String) : String :=
  "\"" ++ String.join (s.toList.map escChar) ++ "\""

/-- `json.dumps(v, indent=2)` at current indentation `n`: members of a
container are separated by `",\n"`, keys are followed by `": "`, each nesting
level indents by two more spaces, empty containers print inline.  The fuel
argument bounds the nesting depth; it is consumed once per container level. -/
def render : Nat → Nat → JVal → String
  | 0, _, _ => ""
  | f + 1, n, v =>
    match v with
    | .jstr s => jquote s
    | .jint i => toString i
    | .jfloat ip fr => toString ip ++ "." ++ fr
    | .jobj [] => "\x7b\x7d"
    | .jobj fs =>
        "\x7b\n"
          ++ String.intercalate ",\n"
              (fs.map (fun kv => spaces (n + 2) ++ jquote kv.1 ++ ": " ++ render f (n + 2) kv.2))
          ++ "\n" ++ spaces n ++ "\x7d"
    | .jarr [] => "[]"
    | .jarr es =>
        "[\n"
          ++ String.intercalate ",\n" (es.map (fun e => spaces (n + 2) ++ render f (n + 2) e))
          ++ "\n" ++ spaces n ++ "]"

/-- `json.dumps(v, indent=2)`.  Fuel 32 strictly exceeds the nesting depth of
any value handled here (the literal nests four levels deep). -/
def json_dumps (v : JVal) : String := render 32 0 v

/-- The dictionary literal `erc1155_data` of the script, field for field and
in declaration order. -/
def erc1155_data : JVal :=
  .jobj [
    ("wallet_cluster", .jobj [
      ("eoa", .jstr "0xcce2b7c71f21e358b8e5e797e586cbc03160d58b"),
      ("proxy", .jstr "0xd59d03eeb0fd5979c702ba20bcc25da2ae1d9723"),
      ("type", .jstr "Safe (proxy wallet)")]),
    ("erc1155_transfers", .jobj [
      ("total", .jint 249),
      ("direction_breakdown", .jobj [
        ("to_eoa", .jint 180),
        ("from_eoa", .jint 69)]),
      ("time_range", .jobj [
        ("earliest", .jstr "2024-08-21 17:57:45"),
        ("latest", .jstr "2025-10-30 20:58:09")]),
      ("monthly_breakdown", .jobj [
        ("2024-08", .jint 22),
        ("2024-09", .jint 78),
        ("2024-10", .jint 39),
        ("2024-11", .jint 22),
        ("2024-12", .jint 14),
        ("2025-01", .jint 9),
        ("2025-02", .jint 10),
        ("2025-03", .jint 6),
        ("2025-04", .jint 3),
        ("2025-05", .jint 1),
        ("2025-06", .jint 0),
        ("2025-07", .jint 0),
        ("2025-08", .jint 0),
        ("2025-09", .jint 38),
        ("2025-10", .jint 7)])]),
    ("canonical_trades", .jobj [
      ("count", .jstr "UNKNOWN"),
      ("total_usd_value", .jstr "UNKNOWN")]),
    ("polymarket_ui_volume", .jfloat 1383851 "59"),
    ("pnl_v2_canonical_volume", .jfloat 225572 "34"),
    ("sample_transfers", .jarr [
      .jobj [
        ("timestamp", .jstr "2025-10-30 20:58:09"),
        ("direction", .jstr "OUTBOUND"),
        ("tx_hash", .jstr "0xabffebff511763210395f59ba99ab3f186ca1ca973c333b4cf0d6803328217cb"),
        ("value_hex", .jstr "0x12560fb0")],
      .jobj [
        ("timestamp", .jstr "2025-10-15 00:38:45"),
        ("direction", .jstr "INBOUND"),
        ("tx_hash", .jstr "0xd3ea4e87ebd74eb8c38df371e83fc9c90d3326c942d3831e88232ca971b47f65"),
        ("value_hex", .jstr "0x3b9aca00")]])]

/-- Observable state of the process: accumulated standard-output text and the
number of write calls performed. -/
structure OutState : Type where
  out : String
  writes : Nat

/-- Python `print(s)`: one write of `s` followed by a newline. -/
def pyPrint (s : String) (st : OutState) : OutState :=
  ⟨st.out ++ s ++ "\n", st.writes + 1⟩

/-- Executing the script body: the single statement
`print(json.dumps(erc1155_data, indent=2))` from the empty output state. -/
def runScript : OutState := pyPrint (json_dumps erc1155_data) ⟨"", 0⟩

/-- Everything the script writes to standard output. -/
def program_stdout : String := runScript.out

/-- The reporter as a zero-argument entry point: each invocation performs the
same run from a fresh output state. -/
def reporter (_u : Unit) : String := (pyPrint (json_dumps erc1155_data) ⟨"", 0⟩).out

/-- Two consecutive runs of the script against the same output stream. -/
def runScriptTwice : OutState := pyPrint (json_dumps erc1155_data) runScript

/-- The script raises no exception and falls off the end, so the interpreter
exits with status 0. -/
def program_exit_code : Nat := 0

/-! ## A JSON reader

The repository only serializes; the round-trip property of the spec speaks of
parsing the output back.  `parseJson` below is therefore a model of standard
JSON parsing (Python `json.loads`), covering the grammar fragment that
`json_dumps` can emit: objects, arrays, double-quoted strings with the five
short escapes, integers and decimal numbers, separated by JSON whitespace. -/

/-- Drop leading JSON whitespace. -/
def skipWs : List Char → List Char
  | [] => []
  | c :: rest => if c = ' ' ∨ c = '\n' ∨ c = '\t' ∨ c = '\r' then skipWs rest else c :: rest

/-- Read a string body after the opening quote, unescaping as `json.loads`
does; `acc` holds the characters read so far, reversed. -/
def parseStrAux : List Char → List Char → Option (String × List Char)
  | acc, c :: rest =>
    if c = '"' then some (String.mk acc.reverse, rest)
    else if c = '\\' then
      match rest with
      | e :: r2 =>
        if e = '"' then parseStrAux ('"' :: acc) r2
        else if e = '\\' then parseStrAux ('\\' :: acc) r2
        else if e = 'n' then parseStrAux ('\n' :: acc) r2
        else if e = 't' then parseStrAux ('\t' :: acc) r2
        else if e = 'r' then parseStrAux ('\r' :: acc) r2
        else none
      | [] => none
    else parseStrAux (c :: acc) rest
  | _, [] => none

/-- Split a leading run of decimal digits from the input. -/
def parseDigits : List Char → List Char × List Char
  | [] => ([], [])
  | c :: rest =>
    if c.isDigit then
      match parseDigits rest with
      | (ds, r) => (c :: ds, r)
    else ([], c :: rest)

/-- Decimal digit characters to the number they denote. -/
def digitsToNat (ds : List Char) : Nat := ds.foldl (fun a c => a * 10 + (c.toNat - 48)) 0

/-- Read a JSON number: an optional minus sign, digits, and an optional
fraction (the fragment `json_dumps` emits has no exponents and only
non-negative fractional numbers). -/
def parseNum : List Char → Option (JVal × List Char)
  | [] => none
  | c :: rest =>
    if c = '-' then
      match parseDigits rest with
      | ([], _) => none
      | (ds, r) => some (.jint (-(digitsToNat ds : Int)), r)
    else
      match parseDigits (c :: rest) with
      | ([], _) => none
      | (ds, r) =>
        match r with
        | d :: r2 =>
          if d = '.' then
            match parseDigits r2 with
            | ([], _) => none
            | (fs, r3) => some (.jfloat (digitsToNat ds) (String.mk fs), r3)
          else some (.jint (digitsToNat ds), d :: r2)
        | [] => some (.jint (digitsToNat ds), [])

/-- What the reader is currently asked to produce: a value, the members of an
object after its opening bracket, or the elements of an array. -/
inductive PMode : Type where
  | mval : PMode
  | mmembers : PMode
  | melems : PMode

/-- The reader's intermediate results, one constructor per `PMode`. -/
inductive PRes : Type where
  | rv : JVal → PRes
  | rm : List (String × JVal) → PRes
  | re : List JVal → PRes

/-- The recursive JSON reader.  Fuel is consumed on every recursive step, so
any fuel exceeding the input length is sufficient. -/
def parseF : Nat → PMode → List Char → Option (PRes × List Char)
  | 0, _, _ => none
  | f + 1, .mval, cs =>
    match skipWs cs with
    | [] => none
    | c :: rest =>
      if c = '"' then
        match parseStrAux [] rest with
        | some (s, r) => some (.rv (.jstr s), r)
        | none => none
      else if c = lbrace then
        match skipWs rest with
        | [] => none
        | c2 :: r2 =>
          if c2 = rbrace then some (.rv (.jobj []), r2)
          else
            match parseF f .mmembers (c2 :: r2) with
            | some (.rm ms, r3) => some (.rv (.jobj ms), r3)
            | _ => none
      else if c = '[' then
        match skipWs rest with
        | [] => none
        | c2 :: r2 =>
          if c2 = ']' then some (.rv (.jarr []), r2)
          else
            match parseF f .melems (c2 :: r2) with
            | some (.re es, r3) => some (.rv (.jarr es), r3)
            | _ => none
      else
        match parseNum (c :: rest) with
        | some (v, r) => some (.rv v, r)
        | none => none
  | f + 1, .mmembers, cs =>
    match skipWs cs with
    | [] => none
    | c :: rest =>
      if c = '"' then
        match parseStrAux [] rest with
        | some (k, r) =>
          match skipWs r with
          | [] => none
          | c2 :: r2 =>
            if c2 = ':' then
              match parseF f .mval r2 with
              | some (.rv v, r3) =>
                match skipWs r3 with
                | [] => none
                | c3 :: r4 =>
                  if c3 = ',' then
                    match parseF f .mmembers r4 with
                    | some (.rm ms, r5) => some (.rm ((k, v) :: ms), r5)
                    | _ => none
                  else if c3 = rbrace then some (.rm [(k, v)], r4)
                  else none
              | _ => none
            else none
        | none => none
      else none
  | f + 1, .melems, cs =>
    match parseF f .mval cs with
    | some (.rv v, r) =>
      match skipWs r with
      | [] => none
      | c :: r2 =>
        if c = ',' then
          match parseF f .melems r2 with
          | some (.re es, r3) => some (.re (v :: es), r3)
          | _ => none
        else if c = ']' then some (.re [v], r2)
        else none
    | _ => none

/-- Parse a whole document: one value, surrounded by optional whitespace,
with nothing left over. -/
def parseJson (s : String) : Option JVal :=
  match parseF (s.length + 16) .mval s.toList with
  | some (.rv v, r) => if skipWs r = [] then some v else none
  | _ => none

/-! ## Accessors over the embedded data -/

/-- Field lookup in an object (first binding wins, as in a Python dict whose
keys are distinct). -/
def getField : JVal → String → Option JVal
  | .jobj fs, k => (fs.find? (fun kv => kv.1 == k)).map (fun kv => kv.2)
  | _, _ => none

/-- Lookup along a path of keys. -/
def getPath : JVal → List String → Option JVal
  | v, [] => some v
  | v, k :: ks =>
    match getField v k with
    | some w => getPath w ks
    | none => none

/-- Sum of the integer-valued fields of an object. -/
def intFieldSum : JVal → Int
  | .jobj fs => fs.foldl (fun a kv => match kv.2 with | .jint i => a + i | _ => a) 0
  | _ => 0

/-- How many fields of an object carry an integer value. -/
def intFieldCount : JVal → Nat
  | .jobj fs => (fs.filter (fun kv => match kv.2 with | .jint _ => true | _ => false)).length
  | _ => 0

/-- The keys of an object, in declaration order. -/
def objKeys : JVal → List String
  | .jobj fs => fs.map (fun kv => kv.1)
  | _ => []

/-- The number of fields of an object. -/
def objSize : JVal → Nat
  | .jobj fs => fs.length
  | _ => 0

/-- The string carried by an optional string value, defaulting to `""`. -/
def jstrOf : Option JVal → String
  | some (.jstr s) => s
  | _ => ""

/-- The entries of the `sample_transfers` array. -/
def sampleEntries : List JVal :=
  match getPath erc1155_data ["sample_transfers"] with
  | some (.jarr es) => es
  | _ => []

/-- The `direction` field of every sample transfer. -/
def sampleDirections : List JVal := sampleEntries.filterMap (fun e => getField e "direction")

/-- A value is a direction label: the string INBOUND or the string OUTBOUND. -/
def isDirection : JVal → Bool
  | .jstr s => s == "INBOUND" || s == "OUTBOUND"
  | _ => false

/-- The `timestamp` field of every sample transfer. -/
def sampleTimestamps : List String := sampleEntries.map (fun e => jstrOf (getField e "timestamp"))

/-- `erc1155_transfers.time_range.earliest` of the literal. -/
def earliest_ts : String := jstrOf (getPath erc1155_data ["erc1155_transfers", "time_range", "earliest"])

/-- `erc1155_transfers.time_range.latest` of the literal. -/
def latest_ts : String := jstrOf (getPath erc1155_data ["erc1155_transfers", "time_range", "latest"])

/-- Lexicographic order on character lists, by Unicode code point. -/
def charListLe : List Char → List Char → Bool
  | [], _ => true
  | _ :: _, [] => false
  | a :: as, b :: bs => if a < b then true else if b < a then false else charListLe as bs

/-- Lexicographic order on strings (for `YYYY-MM-DD HH:MM:SS` timestamps this
coincides with chronological order). -/
def strLe (a b : String) : Bool := charListLe a.toList b.toList

/-- A month rendered as two digits. -/
def pad2 (m : Nat) : String := (if m < 10 then "0" else "") ++ toString m

/-- A calendar month rendered `YYYY-MM`. -/
def monthStr (y m : Nat) : String := toString y ++ "-" ++ pad2 m

/-- `k` consecutive calendar months starting at year `y`, month `m`. -/
def monthSeq : Nat → Nat → Nat → List String
  | _, _, 0 => []
  | y, m, k + 1 => monthStr y m :: (if m = 12 then monthSeq (y + 1) 1 k else monthSeq y (m + 1) k)

/-- The keys of `erc1155_transfers.monthly_breakdown`, in declaration order. -/
def monthlyKeys : List String :=
  match getPath erc1155_data ["erc1155_transfers", "monthly_breakdown"] with
  | some v => objKeys v
  | none => []

/-- The `YYYY-MM` part of a `YYYY-MM-DD HH:MM:SS` timestamp. -/
def monthOf (s : String) : String := String.mk (s.toList.take 7)

/-- The text up to (excluding) the first newline. -/
def firstLine (s : String) : String := String.mk (s.toList.takeWhile (fun c => c != '\n'))

/-- Does `pat` start the list `l`? -/
def listIsPfxOf : List Char → List Char → Bool
  | [], _ => true
  | _ :: _, [] => false
  | a :: as, b :: bs => a == b && listIsPfxOf as bs

/-- Does `pat` occur contiguously anywhere in the list? -/
def hasSubAux (pat : List Char) : List Char → Bool
  | [] => listIsPfxOf pat []
  | c :: rest => listIsPfxOf pat (c :: rest) || hasSubAux pat rest

/-- Does the string `pat` occur as a contiguous substring of `s`? -/
def strContainsSub (s pat : String) : Bool := hasSubAux pat.toList s.toList

/-- The text `json.dumps(erc1155_data, indent=2)` produces, line by line,
written out explicitly so that indentation depth, key order, number and
string rendering can be read off directly. -/
def expected_lines : List String := [
  "\x7b",
  "  \"wallet_cluster\": \x7b",
  "    \"eoa\": \"0xcce2b7c71f21e358b8e5e797e586cbc03160d58b\",",
  "    \"proxy\": \"0xd59d03eeb0fd5979c702ba20bcc25da2ae1d9723\",",
  "    \"type\": \"Safe (proxy wallet)\"",
  "  \x7d,",
  "  \"erc1155_transfers\": \x7b",
  "    \"total\": 249,",
  "    \"direction_breakdown\": \x7b",
  "      \"to_eoa\": 180,",
  "      \"from_eoa\": 69",
  "    \x7d,",
  "    \"time_range\": \x7b",
  "      \"earliest\": \"2024-08-21 17:57:45\",",
  "      \"latest\": \"2025-10-30 20:58:09\"",
  "    \x7d,",
  "    \"monthly_breakdown\": \x7b",
  "      \"2024-08\": 22,",
  "      \"2024-09\": 78,",
  "      \"2024-10\": 39,",
  "      \"2024-11\": 22,",
  "      \"2024-12\": 14,",
  "      \"2025-01\": 9,",
  "      \"2025-02\": 10,",
  "      \"2025-03\": 6,",
  "      \"2025-04\": 3,",
  "      \"2025-05\": 1,",
  "      \"2025-06\": 0,",
  "      \"2025-07\": 0,",
  "      \"2025-08\": 0,",
  "      \"2025-09\": 38,",
  "      \"2025-10\": 7",
  "    \x7d",
  "  \x7d,",
  "  \"canonical_trades\": \x7b",
  "    \"count\": \"UNKNOWN\",",
  "    \"total_usd_value\": \"UNKNOWN\"",
  "  \x7d,",
  "  \"polymarket_ui_volume\": 1383851.59,",
  "  \"pnl_v2_canonical_volume\": 225572.34,",
  "  \"sample_transfers\": [",
  "    \x7b",
  "      \"timestamp\": \"2025-10-30 20:58:09\",",
  "      \"direction\": \"OUTBOUND\",",
  "      \"tx_hash\": \"0xabffebff511763210395f59ba99ab3f186ca1ca973c333b4cf0d6803328217cb\",",
  "      \"value_hex\": \"0x12560fb0\"",
  "    \x7d,",
  "    \x7b",
  "      \"timestamp\": \"2025-10-15 00:38:45\",",
  "      \"direction\": \"INBOUND\",",
  "      \"tx_hash\": \"0xd3ea4e87ebd74eb8c38df371e83fc9c90d3326c942d3831e88232ca971b47f65\",",
  "      \"value_hex\": \"0x3b9aca00\"",
  "    \x7d",
  "  ]",
  "\x7d"]

/-- The newline-joined expected lines, plus the trailing newline of `print`. -/
def expected_output : String := String.intercalate "\n" expected_lines ++ "\n"

/-! ## The claims -/

/-- C2: the single write to standard output is pretty-printed JSON with
two-space indentation per nesting level, keys in declaration order of the
literal, numbers in standard decimal/float form, strings double-quoted, and
a trailing newline — established by equality with the explicit expected
text, whose lines exhibit each of these properties, and whose last character
is the terminating newline. -/
theorem serializes_to_expected_text : program_stdout = expected_output := rfl

/-- C7: the first output line is the single opening-brace character, and the
output contains the substring `"total": 249`. -/
theorem first_line_and_total_substring :
    firstLine program_stdout = String.singleton lbrace
      ∧ strContainsSub program_stdout ("\"total\": 249") = true := ⟨rfl, rfl⟩

/-- C1: parsing the program's entire standard output as JSON succeeds and
returns exactly the embedded literal (round-trip). -/
theorem roundtrip_parse_output : parseJson program_stdout = some erc1155_data := rfl

/-- C3: in the literal, `direction_breakdown.to_eoa = 180`,
`direction_breakdown.from_eoa = 69`, their sum (the sum of all integer fields
of `direction_breakdown`) is 249, and `erc1155_transfers.total = 249`. -/
theorem direction_breakdown_sums_to_total :
    getPath erc1155_data ["erc1155_transfers", "direction_breakdown", "to_eoa"]
        = some (JVal.jint 180)
      ∧ getPath erc1155_data ["erc1155_transfers", "direction_breakdown", "from_eoa"]
        = some (JVal.jint 69)
      ∧ (getPath erc1155_data ["erc1155_transfers", "direction_breakdown"]).map intFieldSum
        = some 249
      ∧ getPath erc1155_data ["erc1155_transfers", "total"] = some (JVal.jint 249)
      ∧ (180 : Int) + 69 = 249 := ⟨rfl, rfl, rfl, rfl, rfl⟩

/-- C4: `monthly_breakdown` has exactly fifteen fields, all of them integers,
and their sum is exactly 249. -/
theorem monthly_breakdown_sums_to_249 :
    (getPath erc1155_data ["erc1155_transfers", "monthly_breakdown"]).map objSize = some 15
      ∧ (getPath erc1155_data ["erc1155_transfers", "monthly_breakdown"]).map intFieldCount
        = some 15
      ∧ (getPath erc1155_data ["erc1155_transfers", "monthly_breakdown"]).map intFieldSum
        = some 249 := ⟨rfl, rfl, rfl⟩

/-- C5: the serialization is deterministic — any two invocations of the
zero-argument reporter yield the same text, and two consecutive script runs
write the identical byte sequence twice. -/
theorem reporter_deterministic :
    (∀ u₁ u₂ : Unit, reporter u₁ = reporter u₂)
      ∧ runScriptTwice.out = program_stdout ++ program_stdout
      ∧ runScriptTwice.writes = 2 :=
  ⟨fun _ _ => rfl, rfl, rfl⟩

/-- C6: `sample_transfers` has two entries, each carries a `direction` field,
and every such field is the string INBOUND or the string OUTBOUND. -/
theorem sample_directions_restricted :
    sampleEntries.length = 2
      ∧ sampleDirections.length = 2
      ∧ sampleDirections.all isDirection = true := ⟨rfl, rfl, rfl⟩

/-- C8: serialization of the literal record cannot fail (`json_dumps` is a
total function into `String`), the script performs exactly one write — the
serialized text plus newline — and the process exits with status 0. -/
theorem single_write_and_success_exit :
    runScript.writes = 1
      ∧ runScript.out = json_dumps erc1155_data ++ "\n"
      ∧ program_exit_code = 0 := ⟨rfl, rfl, rfl⟩

/-- C9: the first `sample_transfers` timestamp equals
`time_range.latest = "2025-10-30 20:58:09"`, and every sample timestamp lies
in the closed interval from `time_range.earliest` to `time_range.latest`
under lexicographic string order. -/
theorem sample_timestamps_in_time_range :
    sampleTimestamps.headD "" = latest_ts
      ∧ latest_ts = "2025-10-30 20:58:09"
      ∧ sampleTimestamps.all (fun t => strLe earliest_ts t && strLe t latest_ts) = true :=
  ⟨rfl, rfl, rfl⟩

/-- C10: the keys of `monthly_breakdown` are exactly the fifteen consecutive
calendar months from 2024-08 through 2025-10 in chronological order with no
gaps (so the zero months 2025-06, 2025-07, 2025-08 are present), and this
span starts at the month of `time_range.earliest` and ends at the month of
`time_range.latest`. -/
theorem monthly_keys_consecutive_cover_range :
    monthlyKeys = monthSeq 2024 8 15
      ∧ monthlyKeys.length = 15
      ∧ getPath erc1155_data ["erc1155_transfers", "monthly_breakdown", "2025-06"]
        = some (JVal.jint 0)
      ∧ getPath erc1155_data ["erc1155_transfers", "monthly_breakdown", "2025-07"]
        = some (JVal.jint 0)
      ∧ getPath erc1155_data ["erc1155_transfers", "monthly_breakdown", "2025-08"]
        = some (JVal.jint 0)
      ∧ monthOf earliest_ts = monthlyKeys.headD ""
      ∧ monthOf latest_ts = (monthlyKeys.getLast?).getD "" :=
  ⟨rfl, rfl, rfl, rfl, rfl, rfl, rfl⟩
